import Mathlib

/-!
# Verification of the ts-parser-registry build pipeline

Shallow embedding of `src/main.rs`: the `compile_c_dynlib` dynamic-library
builder and the `generate_artifacts` pipeline.  External effects
(filesystem queries, subprocess execution) are modelled by an explicit
environment `Env`; each run produces a trace of external events and a
result, mirroring the Rust control flow statement by statement.
-/

namespace TsParserRegistry

/-- `Path::join` with a single relative component, as used throughout
`main.rs` (`src_dir.join("parser.c")`, `artifact_path.join("c-dynlib")`, …). -/
def pjoin (p s : String) : String := p ++ "/" ++ s

/-- Rust `Path::extension`: the part of the file name (the last
`/`-separated component) after its last `.`; `none` when the file name has
no `.` or only a leading one (hidden files).  Mirrors the check
`scanner_path.extension() == Some("c".as_ref())` in `compile_c_dynlib`. -/
def extension (p : String) : Option String :=
  let revName := (p.data.reverse).takeWhile (fun c => c ≠ '/')
  let revExt := revName.takeWhile (fun c => c ≠ '.')
  match revName.drop revExt.length with
  | [] => none
  | [_] => none
  | _ :: _ :: _ => some ⟨revExt.reverse⟩

/-- Captured result of one external process run: exit status plus the two
output streams (`std::process::Output`, streams already decoded as by
`String::from_utf8_lossy`). -/
structure ProcOutput where
  success : Bool
  stdout : String
  stderr : String
deriving Repr, DecidableEq

/-- The error taxonomy of the pipeline, following the `anyhow` failure
points of `main.rs`:  `?` on `create_dir_all` (ioError), `?` on spawning
`tree-sitter` (generationSpawnError), the `bail!` on a non-zero generator
exit (generationError), the `with_context` on spawning the compiler
(compilationSpawnError), and the `bail!` on a non-zero compiler exit
(compilationError). -/
inductive PipelineError where
  | ioError
  | generationSpawnError
  | generationError (msg : String)
  | compilationSpawnError
  | compilationError (msg : String)
deriving Repr, DecidableEq

instance : DecidableEq (Except PipelineError Unit) := fun a b =>
  match a, b with
  | .ok (), .ok () => isTrue rfl
  | .error e₁, .error e₂ =>
      if h : e₁ = e₂ then isTrue (by rw [h])
      else isFalse (by intro hc; injection hc with h2; exact h h2)
  | .ok _, .error _ => isFalse (fun hc => Except.noConfusion hc)
  | .error _, .ok _ => isFalse (fun hc => Except.noConfusion hc)

/-- Observable external events of a run, in order: recursive directory
creation (`std::fs::create_dir_all`), an attempted execution of the
`tree-sitter` generator, and an attempted execution of the C compiler with
its ordered argument list. -/
inductive Event where
  | mkdir (dir : String)
  | generatorRun (args : List String)
  | compilerRun (args : List String)
deriving Repr, DecidableEq

/-- The environment a run executes against: the host platform of the tool
(`cfg!(windows)`), which files exist (`Path::is_file`), which directories
exist, fault injection for the filesystem and for process spawning, and the
outputs of the external processes (`compilerRuns n` is the result of the
`n`-th execution of the compiler command within one builder call). -/
structure Env where
  hostWindows : Bool
  fsFiles : List String
  fsDirs : List String
  mkdirFault : Bool
  compilerSpawnFault : Bool
  compilerRuns : Nat → ProcOutput
  generatorSpawnFault : Bool
  generatorRunOutput : ProcOutput

/-- `std::fs::create_dir_all`, modelled per its documented contract (an
external collaborator, excluded from the core): creates the directory and
all missing parents, and succeeds without error when the directory already
exists.  Genuine filesystem failures are injected via `Env.mkdirFault`. -/
def createDirAll (dirs : List String) (d : String) : List String :=
  if d ∈ dirs then dirs else d :: dirs

/-- Effect of one event on the set of existing directories. -/
def applyEvent (dirs : List String) : Event → List String
  | .mkdir d => createDirAll dirs d
  | _ => dirs

/-- Directories existing after a trace of events. -/
def dirsAfter (dirs : List String) (tr : List Event) : List String :=
  tr.foldl applyEvent dirs

/-- Scanner resolution in `compile_c_dynlib`: `scanner.c` is tested with
`is_file` first, then `scanner.cc`, else no scanner. -/
def scannerFile (fsFiles : List String) (src_dir : String) : Option String :=
  let c_scanner := pjoin src_dir "scanner.c"
  let cpp_scanner := pjoin src_dir "scanner.cc"
  if c_scanner ∈ fsFiles then some c_scanner
  else if cpp_scanner ∈ fsFiles then some cpp_scanner
  else none

/-- The Windows branch (`cfg!(windows)`) of the command construction:
`/nologo /LD /I <header> /O2 <parser> [<scanner>] /link /out:<library>`. -/
def windowsCommandArgs (header_path library_path parser_path : String)
    (scanner_path : Option String) : List String :=
  let base := ["/nologo", "/LD", "/I", header_path, "/O2", parser_path]
  let withScanner :=
    match scanner_path with
    | some sp => base ++ [sp]
    | none => base
  withScanner ++ ["/link", "/out:" ++ library_path]

/-- The POSIX branch of the command construction:
`-shared -fPIC -fno-exceptions -g -I <header> -o <library> -O2` followed by
`-xc -std=c99 <scanner>` when the scanner has extension `c`, the bare
scanner path otherwise, and finally `-xc <parser>`. -/
def posixCommandArgs (header_path library_path parser_path : String)
    (scanner_path : Option String) : List String :=
  let base := ["-shared", "-fPIC", "-fno-exceptions", "-g", "-I", header_path,
               "-o", library_path, "-O2"]
  let withScanner :=
    match scanner_path with
    | some sp =>
        if extension sp = some "c" then base ++ ["-xc", "-std=c99", sp]
        else base ++ [sp]
    | none => base
  withScanner ++ ["-xc", parser_path]

/-- Full argument list of the compiler invocation.  The dialect is chosen
by `cfg!(windows)` — the host platform the tool was compiled for.  The
`target` string is accepted (it is passed to `cc::Build::target/host` for
compiler discovery in the source) but does not influence the argument
list. -/
def commandArgs (hostWindows : Bool) (target : String)
    (header_path library_path parser_path : String)
    (scanner_path : Option String) : List String :=
  if hostWindows then windowsCommandArgs header_path library_path parser_path scanner_path
  else posixCommandArgs header_path library_path parser_path scanner_path

/-- The `bail!` message on a non-zero compiler exit, carrying both captured
streams. -/
def compilationFailureMsg (out : ProcOutput) : String :=
  "Parser compilation failed.\nStdout: " ++ out.stdout ++ "\nStderr: " ++ out.stderr

/-- The `bail!` message on a non-zero generator exit, carrying the captured
standard error. -/
def generationFailureMsg (out : ProcOutput) : String :=
  "Failed to run \"tree-sitter generate\": " ++ out.stderr

/-- Shallow embedding of `compile_c_dynlib(src_dir, dst_dir, dst_name,
target)`: create the destination directory, resolve the source set,
construct the platform-specific command, then execute it twice in
succession as the source does, checking each result.  Returns the event
trace together with the `anyhow::Result`. -/
def compile_c_dynlib (env : Env) (src_dir dst_dir dst_name target : String) :
    List Event × Except PipelineError Unit :=
  if env.mkdirFault then ([Event.mkdir dst_dir], .error .ioError)
  else
    let parser_path := pjoin src_dir "parser.c"
    let library_path := pjoin dst_dir dst_name
    let scanner_path := scannerFile env.fsFiles src_dir
    let args := commandArgs env.hostWindows target src_dir library_path parser_path scanner_path
    if env.compilerSpawnFault then
      ([Event.mkdir dst_dir, Event.compilerRun args], .error .compilationSpawnError)
    else
      let output := env.compilerRuns 0
      if !output.success then
        ([Event.mkdir dst_dir, Event.compilerRun args],
         .error (.compilationError (compilationFailureMsg output)))
      else
        let output2 := env.compilerRuns 1
        if !output2.success then
          ([Event.mkdir dst_dir, Event.compilerRun args, Event.compilerRun args],
           .error (.compilationError (compilationFailureMsg output2)))
        else
          ([Event.mkdir dst_dir, Event.compilerRun args, Event.compilerRun args], .ok ())

/-- Shallow embedding of `generate_artifacts(args)`: create the artifact
directory, run `tree-sitter generate <grammar_path>/grammar.js`, bail on a
non-zero exit, then compile from `<grammar_path>/src` into
`<artifact_path>/c-dynlib/<grammar_name>.so`. -/
def generate_artifacts (env : Env)
    (grammar_path artifact_path grammar_name target : String) :
    List Event × Except PipelineError Unit :=
  if env.mkdirFault then ([Event.mkdir artifact_path], .error .ioError)
  else
    let genArgs := ["generate", pjoin grammar_path "grammar.js"]
    if env.generatorSpawnFault then
      ([Event.mkdir artifact_path, Event.generatorRun genArgs], .error .generationSpawnError)
    else
      let generate_output := env.generatorRunOutput
      if !generate_output.success then
        ([Event.mkdir artifact_path, Event.generatorRun genArgs],
         .error (.generationError (generationFailureMsg generate_output)))
      else
        let c_dynlib_path := pjoin artifact_path "c-dynlib"
        let res := compile_c_dynlib env (pjoin grammar_path "src") c_dynlib_path
          (grammar_name ++ ".so") target
        ([Event.mkdir artifact_path, Event.generatorRun genArgs] ++ res.1, res.2)

/-- Number of compiler executions in a trace. -/
def countCompilerRuns (tr : List Event) : Nat :=
  tr.countP fun e => match e with | .compilerRun _ => true | _ => false

/-- Whether some compiler invocation in the trace carries `x` among its
arguments. -/
def invocationArgHas (tr : List Event) (x : String) : Bool :=
  tr.any fun e => match e with | .compilerRun args => args.contains x | _ => false

/-- The argument list `compile_c_dynlib` hands to the compiler. -/
def compile_args (env : Env) (src_dir dst_dir dst_name target : String) : List String :=
  commandArgs env.hostWindows target src_dir (pjoin dst_dir dst_name)
    (pjoin src_dir "parser.c") (scannerFile env.fsFiles src_dir)

/-- A successful external process run. -/
def okOutput : ProcOutput := ⟨true, "", ""⟩

/-- A failing external process run with nonempty streams. -/
def failOutput : ProcOutput := ⟨false, "some diagnostics", "some errors"⟩

/-- A benign POSIX-host environment in which every external step succeeds. -/
def baseEnv : Env where
  hostWindows := false
  fsFiles := []
  fsDirs := []
  mkdirFault := false
  compilerSpawnFault := false
  compilerRuns := fun _ => okOutput
  generatorSpawnFault := false
  generatorRunOutput := okOutput

/-- An environment whose source directory `/g/src` holds no `parser.c`;
the compiler, invoked on the nonexistent path, exits non-zero. -/
def envMissingParser : Env :=
  { baseEnv with
      compilerRuns := fun _ =>
        ⟨false, "", "cc: error: /g/src/parser.c: No such file or directory"⟩ }

/-- An environment in which the generator exits non-zero with stderr
`bad grammar`. -/
def envGenFail : Env :=
  { baseEnv with generatorRunOutput := ⟨false, "", "bad grammar"⟩ }

/-- An environment in which every compiler execution exits non-zero. -/
def envCompFail : Env :=
  { baseEnv with compilerRuns := fun _ => failOutput }

/-- An environment in which the generator has populated
`/artifacts/src/` — the layout the external tool produces when run with
working directory `/artifacts` — while `/grammar/src/` holds nothing. -/
def envArtifactSrc : Env :=
  { baseEnv with
      fsFiles := ["/artifacts/src/parser.c", "/artifacts/src/scanner.c"] }

/-- An environment in which only `scanner.c` exists under `/g/src`. -/
def envCScanner : Env :=
  { baseEnv with fsFiles := ["/g/src/parser.c", "/g/src/scanner.c"] }

/-! ## General lemmas about the embedding -/

lemma takeWhile_ne_slash (l₁ l₂ : List Char) (h : ∀ c ∈ l₁, c ≠ '/') :
    (l₁ ++ '/' :: l₂).takeWhile (fun c => c ≠ '/') = l₁ := by
  induction l₁ with
  | nil => simp [List.takeWhile]
  | cons a t ih =>
      have ha : (fun c => decide (c ≠ '/')) a = true := by
        simp [h a (List.mem_cons_self a t)]
      calc ((a :: t) ++ '/' :: l₂).takeWhile (fun c => decide (c ≠ '/'))
          = a :: ((t ++ '/' :: l₂).takeWhile (fun c => decide (c ≠ '/'))) := by
            rw [List.cons_append]
            exact List.takeWhile_cons_of_pos ha
        _ = a :: t := by rw [ih (fun c hc => h c (List.mem_cons_of_mem a hc))]

/-- Joining a slash-free file name onto any directory leaves its
extension unchanged. -/
lemma extension_pjoin (src name : String) (h : ∀ c ∈ name.data, c ≠ '/') :
    extension (pjoin src name) = extension name := by
  unfold extension
  have h1 : (pjoin src name).data = src.data ++ ('/' :: name.data) := by
    simp [pjoin, String.data_append]
  rw [h1]
  have h2 : (src.data ++ ('/' :: name.data)).reverse
      = name.data.reverse ++ ('/' :: src.data.reverse) := by
    simp [List.reverse_append, List.reverse_cons]
  rw [h2]
  have h3 : ∀ c ∈ name.data.reverse, c ≠ '/' := by
    intro c hc; exact h c (List.mem_reverse.mp hc)
  rw [takeWhile_ne_slash _ _ h3]
  rw [List.takeWhile_eq_self_iff.mpr (by intro c hc; simpa using h3 c hc)]

lemma extension_pjoin_scanner_c (src : String) :
    extension (pjoin src "scanner.c") = some "c" := by
  rw [extension_pjoin src "scanner.c" (by decide)]; decide

lemma extension_pjoin_scanner_cc (src : String) :
    extension (pjoin src "scanner.cc") = some "cc" := by
  rw [extension_pjoin src "scanner.cc" (by decide)]; decide

/-- The parser source path appears in every constructed argument list. -/
lemma parser_mem_commandArgs (hw : Bool) (target header lib parser : String)
    (sc : Option String) :
    parser ∈ commandArgs hw target header lib parser sc := by
  rcases sc with _ | sp <;> cases hw <;>
    simp [commandArgs, windowsCommandArgs, posixCommandArgs]

/-- The include flag of the selected dialect, immediately followed by the
header directory, appears in every constructed argument list. -/
lemma commandArgs_include_dir (hw : Bool) (target header lib parser : String)
    (sc : Option String) :
    ∃ l₁ l₂, commandArgs hw target header lib parser sc =
      l₁ ++ [(if hw then "/I" else "-I"), header] ++ l₂ := by
  rcases sc with _ | sp
  · cases hw
    · exact ⟨["-shared", "-fPIC", "-fno-exceptions", "-g"],
        ["-o", lib, "-O2", "-xc", parser], rfl⟩
    · exact ⟨["/nologo", "/LD"],
        ["/O2", parser, "/link", "/out:" ++ lib], rfl⟩
  · cases hw
    · by_cases hx : extension sp = some "c"
      · exact ⟨["-shared", "-fPIC", "-fno-exceptions", "-g"],
          ["-o", lib, "-O2", "-xc", "-std=c99", sp, "-xc", parser],
          by simp [commandArgs, posixCommandArgs, hx]⟩
      · exact ⟨["-shared", "-fPIC", "-fno-exceptions", "-g"],
          ["-o", lib, "-O2", sp, "-xc", parser],
          by simp [commandArgs, posixCommandArgs, hx]⟩
    · exact ⟨["/nologo", "/LD"],
        ["/O2", parser, sp, "/link", "/out:" ++ lib], rfl⟩

/-- The destination library path is referenced in every constructed
argument list: bare after `-o` in the POSIX dialect, fused into `/out:` in
the Windows dialect. -/
lemma lib_mem_commandArgs (hw : Bool) (target header lib parser : String)
    (sc : Option String) :
    (hw = true → "/out:" ++ lib ∈ commandArgs hw target header lib parser sc) ∧
    (hw = false → lib ∈ commandArgs hw target header lib parser sc) := by
  constructor <;> intro hhw <;> subst hhw <;> rcases sc with _ | sp
  · simp [commandArgs, windowsCommandArgs]
  · simp [commandArgs, windowsCommandArgs]
  · simp [commandArgs, posixCommandArgs]
  · by_cases hx : extension sp = some "c" <;> simp [commandArgs, posixCommandArgs, hx]

lemma pjoin_ne (p s : String) : pjoin p s ≠ p := by
  intro h
  have hlen := congrArg String.length h
  rw [pjoin, String.length_append, String.length_append] at hlen
  have h1 : "/".length = 1 := rfl
  omega

/-- Control-flow shape of the builder's event trace: the destination
directory is created, then the compiler command is executed once, and —
unless spawning failed or the first run exited non-zero — a second
identical execution follows. -/
lemma compile_trace_shape (env : Env) (src_dir dst_dir dst_name target : String)
    (hmk : env.mkdirFault = false) :
    (compile_c_dynlib env src_dir dst_dir dst_name target).1 =
      Event.mkdir dst_dir ::
      Event.compilerRun (compile_args env src_dir dst_dir dst_name target) ::
      (if env.compilerSpawnFault = true ∨ (env.compilerRuns 0).success = false then []
       else [Event.compilerRun (compile_args env src_dir dst_dir dst_name target)]) := by
  cases h1 : env.compilerSpawnFault <;> cases h2 : (env.compilerRuns 0).success <;>
    cases h3 : (env.compilerRuns 1).success <;>
    simp [compile_c_dynlib, compile_args, hmk, h1, h2, h3]

/-- Result shape of the builder: spawn failure, first-run failure,
second-run failure, or success, in that order of checks. -/
lemma compile_result_shape (env : Env) (src_dir dst_dir dst_name target : String)
    (hmk : env.mkdirFault = false) :
    (compile_c_dynlib env src_dir dst_dir dst_name target).2 =
      (if env.compilerSpawnFault = true then .error .compilationSpawnError
       else if (env.compilerRuns 0).success = false then
         .error (.compilationError (compilationFailureMsg (env.compilerRuns 0)))
       else if (env.compilerRuns 1).success = false then
         .error (.compilationError (compilationFailureMsg (env.compilerRuns 1)))
       else .ok ()) := by
  cases h1 : env.compilerSpawnFault <;> cases h2 : (env.compilerRuns 0).success <;>
    cases h3 : (env.compilerRuns 1).success <;>
    simp [compile_c_dynlib, hmk, h1, h2, h3]

/-- When the generator succeeds, the pipeline's behaviour is the generator
events followed by the builder run on `<grammar_path>/src` into
`<artifact_path>/c-dynlib/<grammar_name>.so`. -/
lemma generate_success_eq (env : Env) (gp ap name target : String)
    (hmk : env.mkdirFault = false) (hgs : env.generatorSpawnFault = false)
    (hok : env.generatorRunOutput.success = true) :
    generate_artifacts env gp ap name target =
      (Event.mkdir ap :: Event.generatorRun ["generate", pjoin gp "grammar.js"] ::
         (compile_c_dynlib env (pjoin gp "src") (pjoin ap "c-dynlib") (name ++ ".so") target).1,
       (compile_c_dynlib env (pjoin gp "src") (pjoin ap "c-dynlib") (name ++ ".so") target).2) := by
  simp [generate_artifacts, hmk, hgs, hok]

/-- When the generator exits non-zero, the pipeline stops right there with
the generation error. -/
lemma generate_genfail_eq (env : Env) (gp ap name target : String)
    (hmk : env.mkdirFault = false) (hgs : env.generatorSpawnFault = false)
    (hbad : env.generatorRunOutput.success = false) :
    generate_artifacts env gp ap name target =
      ([Event.mkdir ap, Event.generatorRun ["generate", pjoin gp "grammar.js"]],
       .error (.generationError (generationFailureMsg env.generatorRunOutput))) := by
  simp [generate_artifacts, hmk, hgs, hbad]

lemma mem_createDirAll_self (dirs : List String) (d : String) :
    d ∈ createDirAll dirs d := by
  unfold createDirAll; split
  · assumption
  · exact List.mem_cons_self d dirs

lemma mem_createDirAll_of_mem (dirs : List String) (d x : String) (h : x ∈ dirs) :
    x ∈ createDirAll dirs d := by
  unfold createDirAll; split
  · exact h
  · exact List.mem_cons_of_mem d h

lemma mem_dirsAfter_of_mem (tr : List Event) (dirs : List String) (x : String)
    (h : x ∈ dirs) : x ∈ dirsAfter dirs tr := by
  induction tr generalizing dirs with
  | nil => exact h
  | cons e t ih =>
      rcases e with d | a | a
      · exact ih _ (mem_createDirAll_of_mem _ _ _ h)
      · exact ih _ h
      · exact ih _ h

lemma dirsAfter_cons (dirs : List String) (e : Event) (tr : List Event) :
    dirsAfter dirs (e :: tr) = dirsAfter (applyEvent dirs e) tr := rfl

/-! ## Claims -/

/-- C1, counterexample: in an environment whose source directory `/g/src`
contains no `parser.c`, the builder does not fail before the compiler
invocation — its trace contains a compiler execution.  The claimed
pre-invocation `MissingSourceError` does not exist in the code. -/
theorem C1_counterexample_no_precheck :
    pjoin "/g/src" "parser.c" ∉ envMissingParser.fsFiles ∧
    countCompilerRuns
      (compile_c_dynlib envMissingParser "/g/src" "/a/c-dynlib" "g.so"
        "x86_64-unknown-linux-gnu").1 = 1 := by decide

/-- C1, amended: the builder performs no existence check on `parser.c`.
Even when `<source dir>/parser.c` is absent, the command containing that
path is constructed and the compiler invocation is attempted; a missing
parser can only surface afterwards through the compiler's own failure. -/
theorem C1_missing_parser_still_invoked (env : Env)
    (src_dir dst_dir dst_name target : String)
    (hmk : env.mkdirFault = false)
    (hmissing : pjoin src_dir "parser.c" ∉ env.fsFiles) :
    Event.compilerRun (compile_args env src_dir dst_dir dst_name target) ∈
      (compile_c_dynlib env src_dir dst_dir dst_name target).1 ∧
    pjoin src_dir "parser.c" ∈ compile_args env src_dir dst_dir dst_name target := by
  constructor
  · rw [compile_trace_shape env src_dir dst_dir dst_name target hmk]
    simp
  · simp only [compile_args]
    exact parser_mem_commandArgs _ _ _ _ _ _

/-- C1, witness at a concrete missing-parser environment. -/
theorem C1_missing_parser_witness :
    Event.compilerRun (compile_args envMissingParser "/g/src" "/a/c-dynlib" "g.so" "t") ∈
      (compile_c_dynlib envMissingParser "/g/src" "/a/c-dynlib" "g.so" "t").1 ∧
    pjoin "/g/src" "parser.c" ∈
      compile_args envMissingParser "/g/src" "/a/c-dynlib" "g.so" "t" :=
  C1_missing_parser_still_invoked envMissingParser "/g/src" "/a/c-dynlib" "g.so" "t"
    rfl (by decide)

/-- C2: the code executes the compiler command twice.  In a build whose
executions all succeed, the trace contains exactly two compiler
executions of the same command, contradicting the required single
invocation ("compile once, check once"). -/
theorem C2_double_invocation :
    countCompilerRuns
      (compile_c_dynlib baseEnv "/g/src" "/a/c-dynlib" "g.so"
        "x86_64-unknown-linux-gnu").1 = 2 ∧
    (compile_c_dynlib baseEnv "/g/src" "/a/c-dynlib" "g.so"
        "x86_64-unknown-linux-gnu").2 = .ok () := by decide

/-- C3, counterexample: with generated sources present only under
`/artifacts/src/` (the external generator's output layout, since it runs
with working directory `/artifacts`), the pipeline invoked with grammar
root `/grammar` hands the compiler paths under `/grammar/src` and never a
path under `/artifacts/src`. -/
theorem C3_counterexample_artifact_src :
    invocationArgHas (generate_artifacts envArtifactSrc "/grammar" "/artifacts" "g" "t").1
      "/grammar/src/parser.c" = true ∧
    invocationArgHas (generate_artifacts envArtifactSrc "/grammar" "/artifacts" "g" "t").1
      "/grammar/src" = true ∧
    invocationArgHas (generate_artifacts envArtifactSrc "/grammar" "/artifacts" "g" "t").1
      "/artifacts/src/parser.c" = false ∧
    invocationArgHas (generate_artifacts envArtifactSrc "/grammar" "/artifacts" "g" "t").1
      "/artifacts/src" = false := by decide

/-- C3, amended: the Source Set is resolved from `<grammar path>/src/`
(not `<artifact path>/src/`), and that same directory is the include path
passed to the compiler. -/
theorem C3_sources_resolved_from_grammar_path (env : Env)
    (gp ap name target : String)
    (hmk : env.mkdirFault = false) (hgs : env.generatorSpawnFault = false)
    (hok : env.generatorRunOutput.success = true) :
    ∃ args l₁ l₂,
      Event.compilerRun args ∈ (generate_artifacts env gp ap name target).1 ∧
      args = l₁ ++ [(if env.hostWindows then "/I" else "-I"), pjoin gp "src"] ++ l₂ ∧
      pjoin (pjoin gp "src") "parser.c" ∈ args := by
  obtain ⟨l₁, l₂, hsplit⟩ :=
    commandArgs_include_dir env.hostWindows target (pjoin gp "src")
      (pjoin (pjoin ap "c-dynlib") (name ++ ".so")) (pjoin (pjoin gp "src") "parser.c")
      (scannerFile env.fsFiles (pjoin gp "src"))
  refine ⟨compile_args env (pjoin gp "src") (pjoin ap "c-dynlib") (name ++ ".so") target,
    l₁, l₂, ?_, ?_, ?_⟩
  · rw [generate_success_eq env gp ap name target hmk hgs hok]
    simp only [List.mem_cons]
    right; right
    rw [compile_trace_shape env _ _ _ _ hmk]
    simp
  · simpa [compile_args] using hsplit
  · simp only [compile_args]
    exact parser_mem_commandArgs _ _ _ _ _ _

/-- C3, witness at a concrete benign environment. -/
theorem C3_sources_witness :
    ∃ args l₁ l₂,
      Event.compilerRun args ∈ (generate_artifacts baseEnv "/grammar" "/artifacts" "g" "t").1 ∧
      args = l₁ ++ [(if baseEnv.hostWindows then "/I" else "-I"), pjoin "/grammar" "src"] ++ l₂ ∧
      pjoin (pjoin "/grammar" "src") "parser.c" ∈ args :=
  C3_sources_resolved_from_grammar_path baseEnv "/grammar" "/artifacts" "g" "t" rfl rfl rfl

/-- C4: scanner resolution checks the C dialect first: when
`scanner.c` exists it is selected (regardless of `scanner.cc`);
`scanner.cc` is selected only when `scanner.c` is absent; when neither
exists no scanner is selected. -/
theorem C4_scanner_precedence (fs : List String) (src : String) :
    (pjoin src "scanner.c" ∈ fs → scannerFile fs src = some (pjoin src "scanner.c")) ∧
    (pjoin src "scanner.c" ∉ fs → pjoin src "scanner.cc" ∈ fs →
       scannerFile fs src = some (pjoin src "scanner.cc")) ∧
    (pjoin src "scanner.c" ∉ fs → pjoin src "scanner.cc" ∉ fs →
       scannerFile fs src = none) := by
  refine ⟨fun h => ?_, fun h1 h2 => ?_, fun h1 h2 => ?_⟩ <;>
    simp [scannerFile, *]

/-- C4, witness: with both dialects present the C dialect wins. -/
theorem C4_scanner_precedence_witness :
    scannerFile ["/g/src/scanner.c", "/g/src/scanner.cc"] "/g/src" =
      some (pjoin "/g/src" "scanner.c") :=
  (C4_scanner_precedence ["/g/src/scanner.c", "/g/src/scanner.cc"] "/g/src").1 (by decide)

/-- C5: in the POSIX dialect, a selected C-dialect scanner is passed as
`-xc -std=c99 <scanner>`; a selected C++-dialect scanner is passed bare
(directly after `-O2`, with no C-dialect flag); scanner arguments precede
the parser source; and the parser source is always preceded by `-xc`. -/
theorem C5_posix_dialect_flags (fs : List String) (src lib parser : String) :
    (scannerFile fs src = some (pjoin src "scanner.c") →
       ∃ l, posixCommandArgs src lib parser (scannerFile fs src) =
         l ++ ["-xc", "-std=c99", pjoin src "scanner.c", "-xc", parser]) ∧
    (scannerFile fs src = some (pjoin src "scanner.cc") →
       ∃ l, posixCommandArgs src lib parser (scannerFile fs src) =
         l ++ ["-O2", pjoin src "scanner.cc", "-xc", parser]) ∧
    (∀ sc, ∃ l, posixCommandArgs src lib parser sc = l ++ ["-xc", parser]) := by
  refine ⟨fun h => ?_, fun h => ?_, fun sc => ?_⟩
  · rw [h]
    exact ⟨["-shared", "-fPIC", "-fno-exceptions", "-g", "-I", src, "-o", lib, "-O2"],
      by simp [posixCommandArgs, extension_pjoin_scanner_c]⟩
  · rw [h]
    exact ⟨["-shared", "-fPIC", "-fno-exceptions", "-g", "-I", src, "-o", lib],
      by simp [posixCommandArgs, extension_pjoin_scanner_cc]⟩
  · rcases sc with _ | sp
    · exact ⟨["-shared", "-fPIC", "-fno-exceptions", "-g", "-I", src, "-o", lib, "-O2"], rfl⟩
    · by_cases hx : extension sp = some "c"
      · exact ⟨["-shared", "-fPIC", "-fno-exceptions", "-g", "-I", src, "-o", lib, "-O2",
          "-xc", "-std=c99", sp], by simp [posixCommandArgs, hx]⟩
      · exact ⟨["-shared", "-fPIC", "-fno-exceptions", "-g", "-I", src, "-o", lib, "-O2",
          sp], by simp [posixCommandArgs, hx]⟩

/-- C5, witness: with only `scanner.c` present, the C-dialect flags sit
immediately before the scanner, which precedes the `-xc`-prefixed
parser. -/
theorem C5_posix_dialect_witness :
    ∃ l, posixCommandArgs "/g/src" "/a/c-dynlib/g.so" "/g/src/parser.c"
        (scannerFile ["/g/src/parser.c", "/g/src/scanner.c"] "/g/src") =
      l ++ ["-xc", "-std=c99", pjoin "/g/src" "scanner.c", "-xc", "/g/src/parser.c"] :=
  (C5_posix_dialect_flags ["/g/src/parser.c", "/g/src/scanner.c"] "/g/src"
    "/a/c-dynlib/g.so" "/g/src/parser.c").1 (by decide)

/-- C6: when the generator exits non-zero, the pipeline aborts with an
error carrying the generator's captured stderr; no compiler execution
appears in the trace and the `c-dynlib` destination directory is never
created. -/
theorem C6_generator_failure_aborts (env : Env) (gp ap name target : String)
    (hmk : env.mkdirFault = false) (hgs : env.generatorSpawnFault = false)
    (hbad : env.generatorRunOutput.success = false) :
    countCompilerRuns (generate_artifacts env gp ap name target).1 = 0 ∧
    Event.mkdir (pjoin ap "c-dynlib") ∉ (generate_artifacts env gp ap name target).1 ∧
    (generate_artifacts env gp ap name target).2 =
      .error (.generationError
        ("Failed to run \"tree-sitter generate\": " ++ env.generatorRunOutput.stderr)) := by
  rw [generate_genfail_eq env gp ap name target hmk hgs hbad]
  refine ⟨rfl, ?_, rfl⟩
  simp [pjoin_ne ap "c-dynlib"]

/-- C6, witness at a generator failing with stderr `bad grammar`. -/
theorem C6_generator_failure_witness :
    countCompilerRuns (generate_artifacts envGenFail "/g" "/a" "g" "t").1 = 0 ∧
    Event.mkdir (pjoin "/a" "c-dynlib") ∉ (generate_artifacts envGenFail "/g" "/a" "g" "t").1 ∧
    (generate_artifacts envGenFail "/g" "/a" "g" "t").2 =
      .error (.generationError
        ("Failed to run \"tree-sitter generate\": " ++ envGenFail.generatorRunOutput.stderr)) :=
  C6_generator_failure_aborts envGenFail "/g" "/a" "g" "t" rfl rfl rfl

/-- C7: a non-zero compiler exit (on either execution) makes the builder
fail with a compilation error whose message embeds both the captured
standard output and the captured standard error of that execution. -/
theorem C7_compilation_error_carries_streams (env : Env)
    (src_dir dst_dir dst_name target : String)
    (hmk : env.mkdirFault = false) (hsp : env.compilerSpawnFault = false) :
    ((env.compilerRuns 0).success = false →
       (compile_c_dynlib env src_dir dst_dir dst_name target).2 =
         .error (.compilationError (compilationFailureMsg (env.compilerRuns 0)))) ∧
    ((env.compilerRuns 0).success = true → (env.compilerRuns 1).success = false →
       (compile_c_dynlib env src_dir dst_dir dst_name target).2 =
         .error (.compilationError (compilationFailureMsg (env.compilerRuns 1)))) ∧
    (∀ out : ProcOutput, ∃ a b c,
       compilationFailureMsg out = a ++ (out.stdout ++ b) ∧
       compilationFailureMsg out = c ++ out.stderr) := by
  refine ⟨fun h0 => ?_, fun h0 h1 => ?_, fun out => ?_⟩
  · rw [compile_result_shape env _ _ _ _ hmk]
    simp [hsp, h0]
  · rw [compile_result_shape env _ _ _ _ hmk]
    simp [hsp, h0, h1]
  · refine ⟨"Parser compilation failed.\nStdout: ",
      "\nStderr: " ++ out.stderr,
      "Parser compilation failed.\nStdout: " ++ out.stdout ++ "\nStderr: ", ?_, rfl⟩
    simp [compilationFailureMsg, String.append_assoc]

/-- C7, witness at a concretely failing compiler. -/
theorem C7_compilation_error_witness :
    (compile_c_dynlib envCompFail "/g/src" "/a/c-dynlib" "g.so" "t").2 =
      .error (.compilationError (compilationFailureMsg (envCompFail.compilerRuns 0))) :=
  (C7_compilation_error_carries_streams envCompFail "/g/src" "/a/c-dynlib" "g.so" "t"
    rfl rfl).1 rfl

/-- C8: destination-directory creation is idempotent: absent a genuine
filesystem fault no builder run fails with an I/O error — in particular a
second run against the already-created destination directory does not —
the directory exists after the first run, and only the injected
filesystem fault produces an I/O error. -/
theorem C8_destination_creation_idempotent (env : Env)
    (src_dir dst_dir dst_name target : String) :
    (env.mkdirFault = false →
       (compile_c_dynlib env src_dir dst_dir dst_name target).2 ≠ .error .ioError ∧
       (compile_c_dynlib
           { env with fsDirs :=
               dirsAfter env.fsDirs (compile_c_dynlib env src_dir dst_dir dst_name target).1 }
           src_dir dst_dir dst_name target).2 ≠ .error .ioError ∧
       dst_dir ∈ dirsAfter env.fsDirs (compile_c_dynlib env src_dir dst_dir dst_name target).1) ∧
    (env.mkdirFault = true →
       (compile_c_dynlib env src_dir dst_dir dst_name target).2 = .error .ioError) := by
  constructor
  · intro hmk
    refine ⟨?_, ?_, ?_⟩
    · cases h1 : env.compilerSpawnFault <;> cases h2 : (env.compilerRuns 0).success <;>
        cases h3 : (env.compilerRuns 1).success <;>
        simp [compile_c_dynlib, hmk, h1, h2, h3]
    · cases h1 : env.compilerSpawnFault <;> cases h2 : (env.compilerRuns 0).success <;>
        cases h3 : (env.compilerRuns 1).success <;>
        simp [compile_c_dynlib, hmk, h1, h2, h3]
    · rw [compile_trace_shape env _ _ _ _ hmk, dirsAfter_cons]
      exact mem_dirsAfter_of_mem _ _ _ (mem_createDirAll_self _ _)
  · intro hmk
    simp [compile_c_dynlib, hmk]

/-- C8, witness at the benign environment. -/
theorem C8_destination_creation_witness :
    (compile_c_dynlib baseEnv "/g/src" "/a/c-dynlib" "g.so" "t").2 ≠ .error .ioError ∧
    (compile_c_dynlib
        { baseEnv with
            fsDirs := dirsAfter baseEnv.fsDirs
              (compile_c_dynlib baseEnv "/g/src" "/a/c-dynlib" "g.so" "t").1 }
        "/g/src" "/a/c-dynlib" "g.so" "t").2 ≠ .error .ioError ∧
    "/a/c-dynlib" ∈
      dirsAfter baseEnv.fsDirs (compile_c_dynlib baseEnv "/g/src" "/a/c-dynlib" "g.so" "t").1 :=
  (C8_destination_creation_idempotent baseEnv "/g/src" "/a/c-dynlib" "g.so" "t").1 rfl

/-- C9, counterexample: a request whose target triple names Windows
(`x86_64-pc-windows-msvc`) still receives the POSIX-style argument list
when the host is not Windows; the argument list ignores the target triple
entirely and differs from the Windows-style list.  The dialect is
therefore not selected by the request's target triple. -/
theorem C9_counterexample_host_not_target :
    commandArgs false "x86_64-pc-windows-msvc" "/g/src" "/a/c-dynlib/g.so"
        "/g/src/parser.c" none =
      ["-shared", "-fPIC", "-fno-exceptions", "-g", "-I", "/g/src", "-o",
       "/a/c-dynlib/g.so", "-O2", "-xc", "/g/src/parser.c"] ∧
    commandArgs false "x86_64-pc-windows-msvc" "/g/src" "/a/c-dynlib/g.so"
        "/g/src/parser.c" none =
      commandArgs false "x86_64-unknown-linux-gnu" "/g/src" "/a/c-dynlib/g.so"
        "/g/src/parser.c" none ∧
    commandArgs false "x86_64-pc-windows-msvc" "/g/src" "/a/c-dynlib/g.so"
        "/g/src/parser.c" none ≠
      windowsCommandArgs "/g/src" "/a/c-dynlib/g.so" "/g/src/parser.c" none := by decide

/-- C9, amended: the choice between the two command-line dialects is made
by the host platform the tool runs on (`cfg!(windows)`), not by the
request's target triple — the argument list is invariant under changes of
the target triple — and each dialect is a pure function of the source
paths, output path and include path. -/
theorem C9_dialect_selected_by_host (hw : Bool) (t₁ t₂ header lib parser : String)
    (sc : Option String) :
    commandArgs hw t₁ header lib parser sc = commandArgs hw t₂ header lib parser sc ∧
    commandArgs true t₁ header lib parser sc = windowsCommandArgs header lib parser sc ∧
    commandArgs false t₁ header lib parser sc = posixCommandArgs header lib parser sc :=
  ⟨rfl, rfl, rfl⟩

/-- C10: for every host platform and target triple, the pipeline creates
the destination directory `<artifact path>/c-dynlib` and the compiler
invocation references the output library
`<artifact path>/c-dynlib/<grammar name>.so` — `.so` literally, with no
platform-native naming. -/
theorem C10_artifact_name_so (env : Env) (gp ap name target : String)
    (hmk : env.mkdirFault = false) (hgs : env.generatorSpawnFault = false)
    (hok : env.generatorRunOutput.success = true) :
    Event.mkdir (pjoin ap "c-dynlib") ∈ (generate_artifacts env gp ap name target).1 ∧
    Event.compilerRun
        (compile_args env (pjoin gp "src") (pjoin ap "c-dynlib") (name ++ ".so") target) ∈
      (generate_artifacts env gp ap name target).1 ∧
    (env.hostWindows = true →
       "/out:" ++ pjoin (pjoin ap "c-dynlib") (name ++ ".so") ∈
         compile_args env (pjoin gp "src") (pjoin ap "c-dynlib") (name ++ ".so") target) ∧
    (env.hostWindows = false →
       pjoin (pjoin ap "c-dynlib") (name ++ ".so") ∈
         compile_args env (pjoin gp "src") (pjoin ap "c-dynlib") (name ++ ".so") target) := by
  rw [generate_success_eq env gp ap name target hmk hgs hok]
  refine ⟨?_, ?_, ?_, ?_⟩
  · simp only [List.mem_cons]
    right; right
    rw [compile_trace_shape env _ _ _ _ hmk]
    simp
  · simp only [List.mem_cons]
    right; right
    rw [compile_trace_shape env _ _ _ _ hmk]
    simp
  · intro hw
    simp only [compile_args]
    exact (lib_mem_commandArgs env.hostWindows target _ _ _ _).1 hw
  · intro hw
    simp only [compile_args]
    exact (lib_mem_commandArgs env.hostWindows target _ _ _ _).2 hw

/-- C10, witness at the benign POSIX-host environment. -/
theorem C10_artifact_name_witness :
    Event.mkdir (pjoin "/a" "c-dynlib") ∈ (generate_artifacts baseEnv "/g" "/a" "g" "t").1 ∧
    Event.compilerRun
        (compile_args baseEnv (pjoin "/g" "src") (pjoin "/a" "c-dynlib") ("g" ++ ".so") "t") ∈
      (generate_artifacts baseEnv "/g" "/a" "g" "t").1 ∧
    (baseEnv.hostWindows = true →
       "/out:" ++ pjoin (pjoin "/a" "c-dynlib") ("g" ++ ".so") ∈
         compile_args baseEnv (pjoin "/g" "src") (pjoin "/a" "c-dynlib") ("g" ++ ".so") "t") ∧
    (baseEnv.hostWindows = false →
       pjoin (pjoin "/a" "c-dynlib") ("g" ++ ".so") ∈
         compile_args baseEnv (pjoin "/g" "src") (pjoin "/a" "c-dynlib") ("g" ++ ".so") "t") :=
  C10_artifact_name_so baseEnv "/g" "/a" "g" "t" rfl rfl rfl

end TsParserRegistry
